import Mathlib

/-!
Shallow embedding of the QuickSessions browser extension's storage and
template-service layer (src/utils/validator.js, src/utils/constants.js,
the StorageService and TemplateManager modules, and the TabService's
tab-opening pipeline), together with proofs settling the frozen claims.

Modelling conventions:
* JS objects that always flow through the typed shapes of the program are
  embedded as Lean structures.  Timestamps (`Date.toISOString()` strings)
  are embedded as `Nat` milliseconds; `new Date()` becomes an explicit
  `now : Nat` parameter.  `isValidDate` holds for every such value, so the
  timestamp checks of `validateTemplate` are trivially satisfied in the
  typed embedding and are omitted.
* Optional / nullable JS fields become `Option`.
* `usageCount` is embedded as `Int` so that the validator's
  `usageCount < 0` check keeps its content (imported records are not
  validated and may carry negative counts).
* `chrome.storage.sync` is modelled as a `Store` record threaded through
  each operation.  A mutating operation returns `(Except String α) × Store`;
  a thrown JS error corresponds to `.error msg` and, mirroring the source
  where every `chrome.storage.sync.set` happens after all throwing steps,
  the store component is the store at the time of the throw.
* Host-API outcomes that are outside the program (tab/window creation,
  raw storage reads/writes) enter as explicit `Except String _` parameters.
-/

namespace QS

/-- Validation result shape `{ isValid, error }` returned by every
validator in src/utils/validator.js. -/
structure VResult where
  isValid : Bool
  error : Option String
deriving Repr, DecidableEq

/-- `{ isValid: true, error: null }` -/
def VResult.ok : VResult := { isValid := true, error := none }

/-- `{ isValid: false, error: msg }` -/
def VResult.fail (msg : String) : VResult := { isValid := false, error := some msg }

/-- A tab entry stored inside a template (`{url, title, favicon}`). -/
structure Tab where
  url : String
  title : String
  favicon : Option String
deriving Repr, DecidableEq

/-- A stored template record as built by TemplateManager. -/
structure Template where
  id : String
  name : String
  description : Option String
  color : String
  icon : String
  tabs : List Tab
  createdAt : Nat
  lastUsedAt : Option Nat
  usageCount : Int
deriving Repr, DecidableEq

/-- The persisted settings record (constants.js `DEFAULT_SETTINGS` shape). -/
structure Settings where
  startupBehavior : String
  defaultTemplateId : Option String
  openBehavior : String
  closeExistingTabs : Bool
  sortBy : String
  sortOrder : String
  theme : String
  showFavicons : Bool
  confirmDelete : Bool
deriving Repr, DecidableEq

-- Constants from src/utils/constants.js

def UI_MAX_TEMPLATE_NAME_LENGTH : Nat := 50

def UI_MAX_DESCRIPTION_LENGTH : Nat := 200

def UI_MAX_URL_LENGTH : Nat := 2048

def TEMPLATE_MAX_TABS : Nat := 100

def TEMPLATE_DEFAULT_COLOR : String := "#4285F4"

def TEMPLATE_DEFAULT_ICON : String := "📑"

def DATA_VERSION : String := "1.0.0"

def SYNC_QUOTA_BYTES : Nat := 102400

/-- constants.js `DEFAULT_SETTINGS`. -/
def DEFAULT_SETTINGS : Settings :=
  { startupBehavior := "none"
    defaultTemplateId := none
    openBehavior := "new_window"
    closeExistingTabs := false
    sortBy := "lastUsed"
    sortOrder := "desc"
    theme := "auto"
    showFavicons := true
    confirmDelete := true }

/-- Characters admissible in a URL scheme (model of what `new URL`
accepts before the first colon). -/
def isSchemeChar (c : Char) : Bool :=
  c.isAlpha || c.isDigit || c == '+' || c == '-' || c == '.'

/-- JS `String.prototype.trim`, written structurally over the character
list (drop whitespace from both ends) so that it evaluates. -/
def trimChars (l : List Char) : List Char :=
  ((l.dropWhile Char.isWhitespace).reverse.dropWhile Char.isWhitespace).reverse

/-- `name.trim()`. -/
def jsTrim (s : String) : String := (trimChars s.toList).asString

/-- The characters strictly before the first colon, or `none` when the
string contains no colon. -/
def beforeColon : List Char → Option (List Char)
  | [] => none
  | c :: cs => if c = ':' then some [] else (beforeColon cs).map (fun p => c :: p)

/-- Model of `new URL(url).protocol`: the (lower-cased) scheme up to and
including the first colon, or `none` when the string does not parse as a
URL (no colon, or an ill-formed scheme). -/
def urlScheme (url : String) : Option String :=
  match beforeColon url.toList with
  | none => none
  | some scheme =>
      if !scheme.isEmpty && scheme.all isSchemeChar then
        some ((scheme.map Char.toLower).asString ++ ":")
      else none

/-- validator.js `validateUrl`. -/
def validateUrl (url : String) : VResult :=
  if url = "" then .fail "URL is required"
  else if url.length > UI_MAX_URL_LENGTH then .fail "URL is too long"
  else
    match urlScheme url with
    | none => .fail "Invalid URL format"
    | some protocol =>
        if protocol = "http:" || protocol = "https:" then .ok
        else .fail "URL must use http or https protocol"

/-- validator.js `validateTemplateName`. -/
def validateTemplateName (name : String) : VResult :=
  if name = "" then .fail "Template name is required"
  else
    let trimmedName := jsTrim name
    if trimmedName.length = 0 then .fail "Template name cannot be empty"
    else if trimmedName.length > UI_MAX_TEMPLATE_NAME_LENGTH then
      .fail ("Template name must be " ++ toString UI_MAX_TEMPLATE_NAME_LENGTH
        ++ " characters or less")
    else .ok

/-- validator.js `validateDescription`; `none` models an absent
description and the empty string is falsy in JS, hence also accepted
by the early `if (!description)` return. -/
def validateDescription (description : Option String) : VResult :=
  match description with
  | none => .ok
  | some s =>
      if s = "" then .ok
      else if s.length > UI_MAX_DESCRIPTION_LENGTH then
        .fail ("Description must be " ++ toString UI_MAX_DESCRIPTION_LENGTH
          ++ " characters or less")
      else .ok

/-- validator.js `validateTab`. -/
def validateTab (tab : Tab) : VResult :=
  let urlValidation := validateUrl tab.url
  if !urlValidation.isValid then urlValidation
  else if tab.title = "" then .fail "Tab title is required"
  else .ok

/-- The per-tab loop of `validateTemplate`, reporting the first invalid
tab as `Tab i+1: msg`. -/
def validateTabsFrom (i : Nat) : List Tab → VResult
  | [] => .ok
  | tab :: rest =>
      let v := validateTab tab
      if v.isValid then validateTabsFrom (i + 1) rest
      else .fail ("Tab " ++ toString (i + 1) ++ ": " ++ v.error.getD "")

/-- validator.js `validateTemplate`.  The `typeof` and array-shape checks
and the `isValidDate` timestamp checks are trivially satisfied in the
typed embedding (every `Nat` timestamp denotes a valid date) and are
therefore omitted; the remaining checks are translated verbatim.  Note
that the source never inspects `description`. -/
def validateTemplate (t : Template) : VResult :=
  if t.id = "" then .fail "Template ID is required"
  else
    let nameValidation := validateTemplateName t.name
    if !nameValidation.isValid then nameValidation
    else
      let tabsValidation := validateTabsFrom 0 t.tabs
      if !tabsValidation.isValid then tabsValidation
      else if t.usageCount < 0 then .fail "Invalid usage count"
      else .ok

/-- validator.js `validateSettings`.  The three `typeof ... boolean`
checks are trivially satisfied by the `Bool`-typed fields and are
omitted; the closed-enum membership checks are translated verbatim. -/
def validateSettings (st : Settings) : VResult :=
  if !(["none", "show_selector", "auto_launch"].contains st.startupBehavior) then
    .fail "Invalid startup behavior"
  else if !(["new_window", "current_window", "replace_tabs"].contains st.openBehavior) then
    .fail "Invalid open behavior"
  else if !(["name", "created", "lastUsed", "usageCount"].contains st.sortBy) then
    .fail "Invalid sort by value"
  else if !(["asc", "desc"].contains st.sortOrder) then
    .fail "Invalid sort order"
  else if !(["auto", "light", "dark"].contains st.theme) then
    .fail "Invalid theme"
  else .ok

/-- validator.js `sanitizeTemplateName`: trim, cut to the maximum name
length, strip angle brackets. -/
def sanitizeTemplateName (name : String) : String :=
  (((trimChars name.toList).take UI_MAX_TEMPLATE_NAME_LENGTH).filter
    (fun c => !(c == '<' || c == '>'))).asString

/-- The persisted state of `chrome.storage.sync`: the templates key and
the settings key (the version key never influences the claims). -/
structure Store where
  templates : List Template
  settings : Settings
deriving Repr, DecidableEq

/-- A shallow-merge patch for a template, one `Option` per field of the
JS object spread `{ ...existing, ...updates }`. -/
structure TemplatePatch where
  id : Option String := none
  name : Option String := none
  description : Option (Option String) := none
  color : Option String := none
  icon : Option String := none
  tabs : Option (List Tab) := none
  createdAt : Option Nat := none
  lastUsedAt : Option (Option Nat) := none
  usageCount : Option Int := none
deriving Repr, DecidableEq

/-- `{ ...t, ...p }`. -/
def applyPatch (t : Template) (p : TemplatePatch) : Template :=
  { id := p.id.getD t.id
    name := p.name.getD t.name
    description := p.description.getD t.description
    color := p.color.getD t.color
    icon := p.icon.getD t.icon
    tabs := p.tabs.getD t.tabs
    createdAt := p.createdAt.getD t.createdAt
    lastUsedAt := p.lastUsedAt.getD t.lastUsedAt
    usageCount := p.usageCount.getD t.usageCount }

/-- A shallow-merge patch for the settings record. -/
structure SettingsPatch where
  startupBehavior : Option String := none
  defaultTemplateId : Option (Option String) := none
  openBehavior : Option String := none
  closeExistingTabs : Option Bool := none
  sortBy : Option String := none
  sortOrder : Option String := none
  theme : Option String := none
  showFavicons : Option Bool := none
  confirmDelete : Option Bool := none
deriving Repr, DecidableEq

/-- `{ ...currentSettings, ...updates }`. -/
def mergeSettings (cur : Settings) (p : SettingsPatch) : Settings :=
  { startupBehavior := p.startupBehavior.getD cur.startupBehavior
    defaultTemplateId := p.defaultTemplateId.getD cur.defaultTemplateId
    openBehavior := p.openBehavior.getD cur.openBehavior
    closeExistingTabs := p.closeExistingTabs.getD cur.closeExistingTabs
    sortBy := p.sortBy.getD cur.sortBy
    sortOrder := p.sortOrder.getD cur.sortOrder
    theme := p.theme.getD cur.theme
    showFavicons := p.showFavicons.getD cur.showFavicons
    confirmDelete := p.confirmDelete.getD cur.confirmDelete }

/-- `templates.findIndex(t => t.id === templateId)` followed by
`templates[index] = f(templates[index])`, fused into one structural
recursion: replace the first template whose id matches, returning the
replaced element and the new list, or `none` when no id matches. -/
def replaceFirstById (templateId : String) (f : Template → Template) :
    List Template → Option (Template × List Template)
  | [] => none
  | t :: ts =>
      if t.id = templateId then some (f t, f t :: ts)
      else
        match replaceFirstById templateId f ts with
        | none => none
        | some (m, ts2) => some (m, t :: ts2)

-- StorageService (pure-logic layer: the host storage calls succeed)

/-- StorageService.initialize: ensures both keys exist, writing the
defaults for any absent key; the resulting persisted state. -/
def initStorage (existingTemplates : Option (List Template))
    (existingSettings : Option Settings) : Store :=
  { templates := existingTemplates.getD []
    settings := existingSettings.getD DEFAULT_SETTINGS }

/-- StorageService.getTemplate: linear scan by id (`find` returns the
first match or null). -/
def getTemplate (templateId : String) (s : Store) : Option Template :=
  s.templates.find? (fun t => t.id = templateId)

/-- StorageService.saveTemplate: validate, append, persist the whole list. -/
def saveTemplate (t : Template) (s : Store) : (Except String Bool) × Store :=
  let validation := validateTemplate t
  if validation.isValid then
    (.ok true, { s with templates := s.templates ++ [t] })
  else (.error (validation.error.getD ""), s)

/-- StorageService.updateTemplate: locate by id (Not-Found if absent),
shallow-merge the patch, re-validate the merged record, persist. -/
def updateTemplateS (templateId : String) (p : TemplatePatch) (s : Store) :
    (Except String Bool) × Store :=
  match replaceFirstById templateId (fun t => applyPatch t p) s.templates with
  | none => (.error "Template not found", s)
  | some (merged, newList) =>
      let validation := validateTemplate merged
      if validation.isValid then (.ok true, { s with templates := newList })
      else (.error (validation.error.getD ""), s)

/-- StorageService.deleteTemplate: filter the id out (no-op when absent). -/
def deleteTemplate (templateId : String) (s : Store) :
    (Except String Bool) × Store :=
  (.ok true, { s with templates := s.templates.filter (fun t => !(t.id = templateId : Bool)) })

/-- The usage-touch applied by StorageService.updateTemplateUsage:
`lastUsedAt = new Date().toISOString()` and
`usageCount = (usageCount || 0) + 1` (`|| 0` is the identity on a
present numeric count, since `0 || 0` is `0`). -/
def touchUsage (now : Nat) (t : Template) : Template :=
  { t with lastUsedAt := some now, usageCount := t.usageCount + 1 }

/-- StorageService.updateTemplateUsage. -/
def updateTemplateUsage (templateId : String) (now : Nat) (s : Store) :
    (Except String Bool) × Store :=
  match replaceFirstById templateId (touchUsage now) s.templates with
  | none => (.error "Template not found", s)
  | some (_, newList) => (.ok true, { s with templates := newList })

/-- StorageService.updateSettings: merge, validate, persist or throw. -/
def updateSettings (p : SettingsPatch) (s : Store) :
    (Except String Bool) × Store :=
  let newSettings := mergeSettings s.settings p
  let validation := validateSettings newSettings
  if validation.isValid then (.ok true, { s with settings := newSettings })
  else (.error (validation.error.getD ""), s)

/-- StorageService.resetSettings. -/
def resetSettings (s : Store) : (Except String Bool) × Store :=
  (.ok true, { s with settings := DEFAULT_SETTINGS })

/-- The export-file shape `{version, exportedAt, templates}`; `templates`
is `none` when the (imported) document lacks a templates array. -/
structure ExportData where
  version : String
  exportedAt : Nat
  templates : Option (List Template)
deriving Repr, DecidableEq

/-- StorageService.exportData. -/
def exportData (now : Nat) (s : Store) : ExportData :=
  { version := DATA_VERSION, exportedAt := now, templates := some s.templates }

/-- StorageService.importData: reject a payload without a templates
array; merge (skipping imported templates whose id collides with an
existing one) or replace wholesale; return
`merge ? importData.templates.length : templates.length` where in the
replace branch `templates` is the imported list itself. -/
def importData (payload : ExportData) (merge : Bool) (s : Store) :
    (Except String Nat) × Store :=
  match payload.templates with
  | none => (.error "Invalid import data format", s)
  | some imported =>
      if merge then
        let existingIds := s.templates.map (fun t => t.id)
        let newTemplates := imported.filter (fun t => !existingIds.contains t.id)
        (.ok imported.length, { s with templates := s.templates ++ newTemplates })
      else
        (.ok imported.length, { s with templates := imported })

-- TabService tab-opening pipeline

/-- The result object of the three opening strategies. -/
structure OpenResult where
  success : Bool
  openedTabs : Nat
  windowId : Nat
deriving Repr, DecidableEq

/-- The pre-open validation loop of TabService.openTabs: the url of the
first tab failing `validateUrl`, if any. -/
def firstInvalidUrl : List Tab → Option String
  | [] => none
  | tab :: rest =>
      if (validateUrl tab.url).isValid then firstInvalidUrl rest
      else some tab.url

/-- TabService.openTabs.  The host window/tab creation performed by the
three strategies is an external effect, abstracted as
`host : Except String Nat` — the id of the target window on success, the
propagated host-API failure otherwise.  `closeExisting` only affects
which browser tabs get closed, never the persisted store, so it is
threaded but unused. -/
def openTabs (tabs : List Tab) (openBehavior : String) (closeExisting : Bool)
    (host : Except String Nat) : Except String OpenResult :=
  if tabs.length = 0 then .error "No tabs to open"
  else
    match firstInvalidUrl tabs with
    | some u => .error ("Invalid URL: " ++ u)
    | none =>
        if openBehavior = "new_window" || openBehavior = "current_window"
            || openBehavior = "replace_tabs" then
          match host with
          | .ok wid => .ok { success := true, openedTabs := tabs.length, windowId := wid }
          | .error e => .error e
        else .error "Invalid open behavior"

-- TemplateManager

/-- The explicit options object of TemplateManager.launchTemplate; an
empty `openBehavior` string is falsy in JS, so it also triggers the
fallback to the persisted settings. -/
structure OpenOptions where
  openBehavior : String
  closeExisting : Bool
deriving Repr, DecidableEq

/-- `if (!options.openBehavior) { options = {...settings} }`. -/
def resolveOpenOptions (opts : Option OpenOptions) (st : Settings) : OpenOptions :=
  match opts with
  | some o => if o.openBehavior = "" then ⟨st.openBehavior, st.closeExistingTabs⟩ else o
  | none => ⟨st.openBehavior, st.closeExistingTabs⟩

/-- TemplateManager.launchTemplate: load (Not-Found if absent), fail on
zero tabs, resolve options from settings when not supplied, open the
tabs, and only then record usage. -/
def launchTemplate (templateId : String) (opts : Option OpenOptions)
    (host : Except String Nat) (now : Nat) (s : Store) :
    (Except String OpenResult) × Store :=
  match getTemplate templateId s with
  | none => (.error "Template not found", s)
  | some t =>
      if t.tabs.length = 0 then (.error "Template has no tabs", s)
      else
        match openTabs t.tabs (resolveOpenOptions opts s.settings).openBehavior
            (resolveOpenOptions opts s.settings).closeExisting host with
        | .error e => (.error e, s)
        | .ok r =>
            match updateTemplateUsage templateId now s with
            | (.ok _, s2) => (.ok r, s2)
            | (.error e, s2) => (.error e, s2)

/-- TemplateManager.addTab: validate the tab, load the template
(Not-Found if absent), enforce the max-tabs cap, then push the tab and
persist through StorageService.updateTemplate. -/
def addTab (templateId : String) (tab : Tab) (s : Store) :
    (Except String Bool) × Store :=
  let tabValidation := validateTab tab
  if tabValidation.isValid then
    match getTemplate templateId s with
    | none => (.error "Template not found", s)
    | some t =>
        if t.tabs.length ≥ TEMPLATE_MAX_TABS then
          (.error ("Maximum " ++ toString TEMPLATE_MAX_TABS ++ " tabs per template"), s)
        else updateTemplateS templateId { tabs := some (t.tabs ++ [tab]) } s
  else (.error (tabValidation.error.getD ""), s)

/-- TemplateManager.createEmpty: validate the name, build a fresh record
(generated id and creation time enter as parameters `newId`, `now`),
persist via saveTemplate.  The description is stored as given, without
any validation. -/
def createEmpty (name : String) (description : String) (newId : String)
    (now : Nat) (s : Store) : (Except String Template) × Store :=
  let nameValidation := validateTemplateName name
  if nameValidation.isValid then
    let t : Template :=
      { id := newId
        name := sanitizeTemplateName name
        description := some description
        color := TEMPLATE_DEFAULT_COLOR
        icon := TEMPLATE_DEFAULT_ICON
        tabs := []
        createdAt := now
        lastUsedAt := none
        usageCount := 0 }
    match saveTemplate t s with
    | (.ok _, s2) => (.ok t, s2)
    | (.error e, s2) => (.error e, s2)
  else (.error (nameValidation.error.getD ""), s)

/-- The clone built by TemplateManager.duplicateTemplate:
`{...template, id: generateUUID(), name: template.name + " (Copy)",
createdAt: now, lastUsedAt: null, usageCount: 0}`. -/
def copyTemplate (t : Template) (newId : String) (now : Nat) : Template :=
  { t with id := newId
           name := t.name ++ " (Copy)"
           createdAt := now
           lastUsedAt := none
           usageCount := 0 }

/-- TemplateManager.duplicateTemplate: load (Not-Found if absent), clone
with a fresh id, a " (Copy)" name suffix, a new creation time and reset
usage, persist via saveTemplate (which re-validates the clone). -/
def duplicateTemplate (templateId : String) (newId : String) (now : Nat)
    (s : Store) : (Except String Template) × Store :=
  match getTemplate templateId s with
  | none => (.error "Template not found", s)
  | some t =>
      match saveTemplate (copyTemplate t newId now) s with
      | (.ok _, s2) => (.ok (copyTemplate t newId now), s2)
      | (.error e, s2) => (.error e, s2)

-- Host-failure layer (raw chrome.storage.sync outcomes made explicit)

/-- StorageService.getTemplates over a raw storage read: the read yields
the stored value (`none` when the key is absent) or fails; the catch
block logs and returns the empty list instead of re-raising. -/
def getTemplatesRun (read : Except String (Option (List Template))) :
    Except String (List Template) :=
  match read with
  | .ok v => .ok (v.getD [])
  | .error _ => .ok []

/-- StorageService.getSettings over a raw storage read: the catch block
logs and returns the defaults instead of re-raising. -/
def getSettingsRun (read : Except String (Option Settings)) :
    Except String Settings :=
  match read with
  | .ok v => .ok (v.getD DEFAULT_SETTINGS)
  | .error _ => .ok DEFAULT_SETTINGS

/-- The storage-usage report of StorageService.getStorageInfo (the
floating-point `percentUsed` field is omitted). -/
structure StorageInfo where
  bytesInUse : Nat
  quota : Nat
  available : Int
deriving Repr, DecidableEq

/-- StorageService.getStorageInfo: degrade a host failure to null. -/
def getStorageInfo (bytes : Except String Nat) : Option StorageInfo :=
  match bytes with
  | .ok b =>
      some { bytesInUse := b, quota := SYNC_QUOTA_BYTES
             available := (SYNC_QUOTA_BYTES : Int) - (b : Int) }
  | .error _ => none

/-- StorageService.saveTemplate over raw storage outcomes: validation,
then the (failure-swallowing) getTemplates read, then the
`chrome.storage.sync.set` write whose failure the catch block re-raises. -/
def saveTemplateRun (t : Template) (read : Except String (Option (List Template)))
    (write : Except String Unit) : Except String Bool :=
  let validation := validateTemplate t
  if validation.isValid then
    match getTemplatesRun read with
    | .ok _ =>
        match write with
        | .ok _ => .ok true
        | .error e => .error e
    | .error e => .error e
  else .error (validation.error.getD "")

-- Auxiliary notions used by the claim statements

/-- Order on nullable timestamps: a null `lastUsedAt` is the minimum. -/
def tsLE : Option Nat → Option Nat → Bool
  | none, _ => true
  | some _, none => false
  | some a, some b => a ≤ b

/-- Pairwise-distinct template ids. -/
abbrev distinctIds (l : List Template) : Prop :=
  (l.map Template.id).Nodup

/-- The closed enum constraints the spec imposes on a settings record
(the boolean constraints hold by the typing of the embedding). -/
abbrev settingsSatisfiesEnums (st : Settings) : Prop :=
  st.startupBehavior ∈ ["none", "show_selector", "auto_launch"]
  ∧ st.openBehavior ∈ ["new_window", "current_window", "replace_tabs"]
  ∧ st.sortBy ∈ ["name", "created", "lastUsed", "usageCount"]
  ∧ st.sortOrder ∈ ["asc", "desc"]

-- Helper lemmas

theorem replaceFirstById_map_id (templateId : String) (f : Template → Template)
    (hf : ∀ x, (f x).id = x.id) :
    ∀ (l : List Template) (m : Template) (l' : List Template),
      replaceFirstById templateId f l = some (m, l') →
      l'.map Template.id = l.map Template.id := by
  intro l
  induction l with
  | nil => intro m l' h; simp [replaceFirstById] at h
  | cons t ts ih =>
      intro m l' h
      unfold replaceFirstById at h
      split at h
      · rw [Option.some.injEq, Prod.mk.injEq] at h
        rw [← h.2]
        simp [hf]
      · split at h
        · exact absurd h (by simp)
        · rename_i m2 ts2 hr
          rw [Option.some.injEq, Prod.mk.injEq] at h
          rw [← h.2]
          simp [ih m2 ts2 hr]

theorem replaceFirstById_find (templateId : String) (f : Template → Template)
    (hf : ∀ x, (f x).id = x.id) :
    ∀ (l : List Template) (t : Template),
      l.find? (fun x => x.id = templateId) = some t →
      ∃ l', replaceFirstById templateId f l = some (f t, l') ∧
        l'.find? (fun x => x.id = templateId) = some (f t) := by
  intro l
  induction l with
  | nil => intro t h; simp at h
  | cons a ts ih =>
      intro t hfind
      by_cases ha : a.id = templateId
      · rw [List.find?_cons_of_pos _ (by simpa using ha)] at hfind
        rw [Option.some.injEq] at hfind
        subst hfind
        refine ⟨f a :: ts, ?_, ?_⟩
        · unfold replaceFirstById
          simp [ha]
        · exact List.find?_cons_of_pos _ (by simp [hf, ha])
      · rw [List.find?_cons_of_neg _ (by simpa using ha)] at hfind
        obtain ⟨l', h1, h2⟩ := ih t hfind
        refine ⟨a :: l', ?_, ?_⟩
        · unfold replaceFirstById
          simp only [ha, if_false]
          rw [h1]
        · rw [List.find?_cons_of_neg _ (by simpa using ha)]
          exact h2

theorem launchTemplate_eq_of_found (templateId : String) (opts : Option OpenOptions)
    (host : Except String Nat) (now : Nat) (s : Store) (t : Template)
    (hfind : getTemplate templateId s = some t) :
    launchTemplate templateId opts host now s =
      (if t.tabs.length = 0 then ((.error "Template has no tabs" : Except String OpenResult), s)
       else
         match openTabs t.tabs (resolveOpenOptions opts s.settings).openBehavior
             (resolveOpenOptions opts s.settings).closeExisting host with
         | .error e => (.error e, s)
         | .ok r =>
             match updateTemplateUsage templateId now s with
             | (.ok _, s2) => (.ok r, s2)
             | (.error e, s2) => (.error e, s2)) := by
  unfold launchTemplate
  rw [hfind]

theorem updateTemplateS_eq_none (templateId : String) (p : TemplatePatch) (s : Store)
    (hr : replaceFirstById templateId (fun t => applyPatch t p) s.templates = none) :
    updateTemplateS templateId p s = (.error "Template not found", s) := by
  unfold updateTemplateS
  rw [hr]

theorem updateTemplateS_eq_some (templateId : String) (p : TemplatePatch) (s : Store)
    (m : Template) (nl : List Template)
    (hr : replaceFirstById templateId (fun t => applyPatch t p) s.templates = some (m, nl)) :
    updateTemplateS templateId p s =
      (if (validateTemplate m).isValid = true then
        ((.ok true : Except String Bool), { s with templates := nl })
       else (.error ((validateTemplate m).error.getD ""), s)) := by
  unfold updateTemplateS
  rw [hr]

theorem updateTemplateUsage_eq_none (templateId : String) (now : Nat) (s : Store)
    (hr : replaceFirstById templateId (touchUsage now) s.templates = none) :
    updateTemplateUsage templateId now s = (.error "Template not found", s) := by
  unfold updateTemplateUsage
  rw [hr]

theorem updateTemplateUsage_eq_some (templateId : String) (now : Nat) (s : Store)
    (m : Template) (nl : List Template)
    (hr : replaceFirstById templateId (touchUsage now) s.templates = some (m, nl)) :
    updateTemplateUsage templateId now s = (.ok true, { s with templates := nl }) := by
  unfold updateTemplateUsage
  rw [hr]

theorem updateTemplateUsage_store_or_ok (templateId : String) (now : Nat)
    (s : Store) :
    (updateTemplateUsage templateId now s).2 = s
    ∨ (updateTemplateUsage templateId now s).1 = .ok true := by
  unfold updateTemplateUsage
  split
  · exact Or.inl rfl
  · exact Or.inr rfl

theorem validateSettings_sound (st : Settings)
    (h : (validateSettings st).isValid = true) : settingsSatisfiesEnums st := by
  unfold validateSettings at h
  split at h
  · simp [VResult.fail] at h
  · rename_i h1
    split at h
    · simp [VResult.fail] at h
    · rename_i h2
      split at h
      · simp [VResult.fail] at h
      · rename_i h3
        split at h
        · simp [VResult.fail] at h
        · rename_i h4
          refine ⟨?_, ?_, ?_, ?_⟩
          · simp [List.contains] at h1; simp; tauto
          · simp [List.contains] at h2; simp; tauto
          · simp [List.contains] at h3; simp; tauto
          · simp [List.contains] at h4; simp; tauto

-- Concrete fixtures used by witnesses and counterexamples

/-- A valid tab. -/
def tabMail : Tab := { url := "https://mail.example.com", title := "Mail", favicon := none }

/-- A valid stored template with one tab and no usage yet. -/
def TWork1 : Template :=
  { id := "id-1", name := "Work", description := none
    color := TEMPLATE_DEFAULT_COLOR, icon := TEMPLATE_DEFAULT_ICON
    tabs := [tabMail], createdAt := 0, lastUsedAt := none, usageCount := 0 }

/-- A store holding exactly `TWork1` and default settings. -/
def store1 : Store := { templates := [TWork1], settings := DEFAULT_SETTINGS }

-- C1

/-- C1: for a stored template, every successful `launchTemplate` call
(i.e. the tab-opening step returned without error) leaves the stored
record with `usageCount` incremented by exactly 1 and with `lastUsedAt`
set to the current time, hence (assuming the wall clock is monotone, so
that `now` is at least the previously recorded time) a timestamp ≥ the
previous `lastUsedAt`, a null previous value being the minimum. -/
theorem c1_launch_success_increments_usage
    (s : Store) (templateId : String) (t : Template) (opts : Option OpenOptions)
    (host : Except String Nat) (now : Nat) (r : OpenResult)
    (hfind : getTemplate templateId s = some t)
    (hclock : tsLE t.lastUsedAt (some now) = true)
    (hok : (launchTemplate templateId opts host now s).1 = .ok r) :
    ∃ t', getTemplate templateId (launchTemplate templateId opts host now s).2 = some t'
      ∧ t'.usageCount = t.usageCount + 1
      ∧ t'.lastUsedAt = some now
      ∧ tsLE t.lastUsedAt t'.lastUsedAt = true := by
  obtain ⟨l', hrep, hfind'⟩ :=
    replaceFirstById_find templateId (touchUsage now) (fun x => rfl) s.templates t hfind
  have husage : updateTemplateUsage templateId now s
      = (.ok true, { s with templates := l' }) := by
    unfold updateTemplateUsage
    rw [hrep]
  refine ⟨touchUsage now t, ?_, rfl, rfl, hclock⟩
  rw [launchTemplate_eq_of_found templateId opts host now s t hfind] at hok ⊢
  by_cases hlen : t.tabs.length = 0
  · simp [hlen] at hok
  · rw [if_neg hlen] at hok ⊢
    cases hopen : openTabs t.tabs (resolveOpenOptions opts s.settings).openBehavior
        (resolveOpenOptions opts s.settings).closeExisting host with
    | error e =>
        rw [hopen] at hok
        exact Except.noConfusion hok
    | ok r2 =>
        rw [husage]
        exact hfind'

/-- C1 witness: a concrete successful launch of `TWork1`. -/
theorem c1_w :
    getTemplate "id-1" store1 = some TWork1
    ∧ tsLE TWork1.lastUsedAt (some 5) = true
    ∧ (launchTemplate "id-1" none (.ok 7) 5 store1).1
        = .ok { success := true, openedTabs := 1, windowId := 7 }
    ∧ ∃ t', getTemplate "id-1" (launchTemplate "id-1" none (.ok 7) 5 store1).2 = some t'
        ∧ t'.usageCount = TWork1.usageCount + 1
        ∧ t'.lastUsedAt = some 5
        ∧ tsLE TWork1.lastUsedAt t'.lastUsedAt = true :=
  ⟨rfl, rfl, rfl,
    c1_launch_success_increments_usage store1 "id-1" TWork1 none (.ok 7) 5
      { success := true, openedTabs := 1, windowId := 7 } rfl rfl rfl⟩

-- C2

/-- C2: `launchTemplate` fails on an unknown id and on a template with
zero tabs, and every failed launch — including one whose tab-opening
step failed — leaves the store (hence the stored template's
`usageCount`/`lastUsedAt`) unchanged. -/
theorem c2_launch_failure_leaves_store
    (templateId : String) (opts : Option OpenOptions) (host : Except String Nat)
    (now : Nat) (s : Store) :
    (getTemplate templateId s = none →
      launchTemplate templateId opts host now s = (.error "Template not found", s))
    ∧ (∀ t, getTemplate templateId s = some t → t.tabs = [] →
        launchTemplate templateId opts host now s = (.error "Template has no tabs", s))
    ∧ (∀ e, (launchTemplate templateId opts host now s).1 = .error e →
        (launchTemplate templateId opts host now s).2 = s) := by
  refine ⟨?_, ?_, ?_⟩
  · intro h
    unfold launchTemplate
    rw [h]
  · intro t h ht
    unfold launchTemplate
    rw [h]
    simp [ht]
  · intro e
    unfold launchTemplate
    cases hg : getTemplate templateId s with
    | none => intro _; rfl
    | some t =>
        by_cases hlen : t.tabs.length = 0
        · simp [hlen]
        · simp only [hlen, if_false]
          cases hopen : openTabs t.tabs (resolveOpenOptions opts s.settings).openBehavior
              (resolveOpenOptions opts s.settings).closeExisting host with
          | error e2 => intro _; rfl
          | ok r =>
              rcases hu : updateTemplateUsage templateId now s with ⟨u1, u2⟩
              cases u1 with
              | ok b => intro hcontra; simp at hcontra
              | error e2 =>
                  intro _
                  rcases updateTemplateUsage_store_or_ok templateId now s with hs | hok
                  · rw [hu] at hs; exact hs
                  · rw [hu] at hok; simp at hok

/-- C2 witness: launching an id that names no stored template fails and
leaves the store unchanged. -/
theorem c2_w :
    getTemplate "missing" store1 = none
    ∧ launchTemplate "missing" none (.ok 7) 5 store1 = (.error "Template not found", store1) :=
  ⟨rfl, (c2_launch_failure_leaves_store "missing" none (.ok 7) 5 store1).1 rfl⟩

-- C3

/-- C3: adding any valid tab to a stored template whose tab list already
holds the configured maximum (100) fails with the capacity error and
leaves the store unchanged. -/
theorem c3_addTab_at_capacity_fails
    (templateId : String) (tab : Tab) (s : Store) (t : Template)
    (htab : (validateTab tab).isValid = true)
    (hfind : getTemplate templateId s = some t)
    (hfull : t.tabs.length = TEMPLATE_MAX_TABS) :
    addTab templateId tab s = (.error "Maximum 100 tabs per template", s) := by
  unfold addTab
  simp only [htab, if_true]
  rw [hfind]
  have hge : t.tabs.length ≥ TEMPLATE_MAX_TABS := le_of_eq hfull.symm
  simp only [hge, if_true]
  rfl

/-- A valid stored template sitting exactly at the 100-tab cap. -/
def T100 : Template :=
  { id := "id-100", name := "Full", description := none
    color := TEMPLATE_DEFAULT_COLOR, icon := TEMPLATE_DEFAULT_ICON
    tabs := List.replicate 100 tabMail, createdAt := 0, lastUsedAt := none
    usageCount := 0 }

/-- A store holding exactly `T100`. -/
def store100 : Store := { templates := [T100], settings := DEFAULT_SETTINGS }

/-- C3 witness: the capacity error on a concrete 100-tab template. -/
theorem c3_w :
    (validateTab tabMail).isValid = true
    ∧ T100.tabs.length = TEMPLATE_MAX_TABS
    ∧ addTab "id-100" tabMail store100 = (.error "Maximum 100 tabs per template", store100) :=
  ⟨rfl, by simp [T100, TEMPLATE_MAX_TABS],
    c3_addTab_at_capacity_fails "id-100" tabMail store100 T100 rfl rfl
      (by simp [T100, TEMPLATE_MAX_TABS])⟩

-- C4

/-- C4: exporting the template list and importing that export back into
the same store with `merge = true` leaves the stored template list (and
the whole store) unchanged: every imported id collides with an existing
id, so every imported template is skipped. -/
theorem c4_export_import_roundtrip (s : Store) (now : Nat) :
    importData (exportData now s) true s = (.ok s.templates.length, s) := by
  have hnil : s.templates.filter
      (fun t => !((s.templates.map (fun t => t.id)).contains t.id)) = [] := by
    rw [List.filter_eq_nil_iff]
    intro t ht
    simp [List.contains]
    exact ⟨t, ht, rfl⟩
  unfold importData exportData
  simp only [hnil, List.append_nil]
  rfl

-- C5

/-- C5 counterexample: saving an (individually valid) template whose id
already exists is accepted by `saveTemplate` — full-template validation
never checks id uniqueness — and duplicates the stored id. -/
theorem c5_cex :
    distinctIds store1.templates
    ∧ (validateTemplate TWork1).isValid = true
    ∧ (saveTemplate TWork1 store1).1 = .ok true
    ∧ (saveTemplate TWork1 store1).2.templates = [TWork1, TWork1]
    ∧ ¬ distinctIds (saveTemplate TWork1 store1).2.templates :=
  ⟨by decide, rfl, rfl, rfl, by decide⟩

/-- C5 amended: pairwise-distinct ids are preserved by `deleteTemplate`
and `updateTemplateUsage` unconditionally, by `updateTemplate` when the
patch does not rewrite the id, by `saveTemplate` only when the saved
template's id is fresh, and by `importData` (either merge mode) only
when the imported templates' ids are themselves pairwise distinct. -/
theorem c5_distinct_ids_preserved (s : Store) (h : distinctIds s.templates) :
    (∀ t, ¬ t.id ∈ s.templates.map Template.id →
        distinctIds (saveTemplate t s).2.templates)
    ∧ (∀ templateId p, p.id = none →
        distinctIds (updateTemplateS templateId p s).2.templates)
    ∧ (∀ templateId, distinctIds (deleteTemplate templateId s).2.templates)
    ∧ (∀ templateId now, distinctIds (updateTemplateUsage templateId now s).2.templates)
    ∧ (∀ payload ts mg, payload.templates = some ts → distinctIds ts →
        distinctIds (importData payload mg s).2.templates) := by
  refine ⟨?_, ?_, ?_, ?_, ?_⟩
  · intro t ht
    simp only [saveTemplate]
    split
    · show ((s.templates ++ [t]).map Template.id).Nodup
      rw [List.map_append]
      refine List.Nodup.append h (List.nodup_singleton _) ?_
      intro a ha hb
      simp only [List.map_cons, List.map_nil, List.mem_singleton] at hb
      exact ht (hb ▸ ha)
    · exact h
  · intro templateId p hp
    cases hr : replaceFirstById templateId (fun t => applyPatch t p) s.templates with
    | none => rw [updateTemplateS_eq_none templateId p s hr]; exact h
    | some pr =>
        obtain ⟨m, nl⟩ := pr
        rw [updateTemplateS_eq_some templateId p s m nl hr]
        split
        · show (nl.map Template.id).Nodup
          rw [replaceFirstById_map_id templateId _ (fun x => by simp [applyPatch, hp])
            s.templates m nl hr]
          exact h
        · exact h
  · intro templateId
    exact List.Nodup.sublist ((List.filter_sublist _).map _) h
  · intro templateId now
    cases hr : replaceFirstById templateId (touchUsage now) s.templates with
    | none => rw [updateTemplateUsage_eq_none templateId now s hr]; exact h
    | some pr =>
        obtain ⟨m, nl⟩ := pr
        rw [updateTemplateUsage_eq_some templateId now s m nl hr]
        show (nl.map Template.id).Nodup
        rw [replaceFirstById_map_id templateId (touchUsage now) (fun x => rfl)
          s.templates m nl hr]
        exact h
  · intro payload ts mg hts hdts
    simp only [importData]
    rw [hts]
    cases mg with
    | false => exact hdts
    | true =>
        show ((s.templates ++ _).map Template.id).Nodup
        rw [List.map_append]
        refine List.Nodup.append h
          (List.Nodup.sublist ((List.filter_sublist _).map _) hdts) ?_
        intro a ha haf
        simp only [List.mem_map] at haf
        obtain ⟨x, hxmem, hxid⟩ := haf
        rw [List.mem_filter] at hxmem
        obtain ⟨hxts, hpx⟩ := hxmem
        simp only [Bool.not_eq_true', List.contains] at hpx
        simp only [List.elem_eq_mem, decide_eq_false_iff_not] at hpx
        exact hpx (hxid ▸ ha)

/-- C5 witness: a concrete store where the preserved operations keep ids
distinct. -/
theorem c5_w :
    distinctIds store1.templates
    ∧ distinctIds (saveTemplate T100 store1).2.templates
    ∧ distinctIds (updateTemplateUsage "id-1" 5 store1).2.templates :=
  ⟨by decide, (c5_distinct_ids_preserved store1 (by decide)).1 T100 (by decide),
    (c5_distinct_ids_preserved store1 (by decide)).2.2.2.1 "id-1" 5⟩

-- C6

/-- C6: the persisted settings always satisfy the closed enum
constraints (the boolean fields satisfy their constraint by typing):
initialization and reset write the defaults, which satisfy them, and
`updateSettings` either persists the validated merged record (which then
satisfies them) or fails leaving the stored settings unchanged. -/
theorem c6_settings_enum_invariant :
    settingsSatisfiesEnums DEFAULT_SETTINGS
    ∧ (validateSettings DEFAULT_SETTINGS).isValid = true
    ∧ (∀ ts, (initStorage ts none).settings = DEFAULT_SETTINGS)
    ∧ (∀ ts st, (initStorage ts (some st)).settings = st)
    ∧ (∀ s, resetSettings s = (.ok true, { s with settings := DEFAULT_SETTINGS }))
    ∧ (∀ s p,
        ((updateSettings p s).1 = .ok true
          ∧ (updateSettings p s).2.settings = mergeSettings s.settings p
          ∧ settingsSatisfiesEnums (updateSettings p s).2.settings)
        ∨ ((updateSettings p s).1
            = .error ((validateSettings (mergeSettings s.settings p)).error.getD "")
          ∧ (updateSettings p s).2 = s)) := by
  refine ⟨by decide, by decide, fun ts => rfl, fun ts st => rfl, fun s => rfl, ?_⟩
  intro s p
  by_cases hv : (validateSettings (mergeSettings s.settings p)).isValid = true
  · left
    simp only [updateSettings]
    rw [if_pos hv]
    exact ⟨rfl, rfl, validateSettings_sound _ hv⟩
  · right
    simp only [updateSettings]
    rw [if_neg hv]
    exact ⟨rfl, rfl⟩

-- C7

/-- A 201-character description, one character over the documented bound. -/
def longDesc : String := String.mk (List.replicate 201 'a')

/-- A template carrying `longDesc`, otherwise valid. -/
def TLong : Template :=
  { id := "id-2", name := "Notes", description := some longDesc
    color := TEMPLATE_DEFAULT_COLOR, icon := TEMPLATE_DEFAULT_ICON
    tabs := [], createdAt := 0, lastUsedAt := none, usageCount := 0 }

set_option maxRecDepth 8192 in
/-- C7 counterexample: full-template validation accepts a template whose
description is 201 characters long (it never inspects the description),
even though the standalone description validator rejects it. -/
theorem c7_cex :
    (validateTemplate TLong).isValid = true
    ∧ TLong.description = some longDesc
    ∧ longDesc.length = 201
    ∧ UI_MAX_DESCRIPTION_LENGTH = 200
    ∧ (validateDescription TLong.description).isValid = false :=
  ⟨rfl, rfl, by simp [longDesc, String.length], rfl, rfl⟩

/-- C7 amended: `validateTemplate` does not constrain the description at
all (its result is invariant under replacing the description); only the
standalone `validateDescription` — which `validateTemplate` never calls —
enforces the 200-character bound, accepting exactly the absent/empty or
≤ 200-character descriptions; and `createEmpty` persists any description
unvalidated. -/
theorem c7_description_not_validated :
    (∀ (t : Template) (d : Option String),
      validateTemplate { t with description := d } = validateTemplate t)
    ∧ (∀ d : Option String,
        ((validateDescription d).isValid = true
          ↔ (d.getD "").length ≤ UI_MAX_DESCRIPTION_LENGTH))
    ∧ (∀ (desc : String) (now : Nat) (s : Store),
        ∃ t, (createEmpty "Work" desc "fresh-id" now s).1 = .ok t
          ∧ t.description = some desc) := by
  refine ⟨fun t d => rfl, ?_, fun desc now s => ⟨_, rfl, rfl⟩⟩
  intro d
  cases d with
  | none => simp [validateDescription, VResult.ok]
  | some s =>
      by_cases hs : s = ""
      · subst hs
        simp [validateDescription, VResult.ok]
      · by_cases hl : s.length > UI_MAX_DESCRIPTION_LENGTH
        · simp only [validateDescription, hs, if_false, if_pos hl, VResult.fail]
          simp
          omega
        · simp only [validateDescription, hs, if_false, if_neg hl, VResult.ok]
          simp
          omega

-- C8

/-- C8 counterexample: a failed storage read inside `getTemplates` and
`getSettings` is not raised to the caller; it is swallowed and degraded
to the empty list resp. the default settings. -/
theorem c8_cex :
    getTemplatesRun (.error "storage read failed") = .ok []
    ∧ getSettingsRun (.error "storage read failed") = .ok DEFAULT_SETTINGS :=
  ⟨rfl, rfl⟩

/-- C8 amended: `getTemplates` degrades a storage read failure to the
empty list and `getSettings` to the defaults (both swallow the error,
contrary to the propagate-everything policy); the storage-usage query
`getStorageInfo` degrades to null exactly on host failure; and a
mutating operation such as `saveTemplate` does propagate a storage write
failure as a raised error. -/
theorem c8_read_failures_degrade :
    (∀ e, getTemplatesRun (.error e) = .ok [])
    ∧ (∀ e, getSettingsRun (.error e) = .ok DEFAULT_SETTINGS)
    ∧ (∀ e, getStorageInfo (.error e) = none)
    ∧ (∀ b, getStorageInfo (.ok b)
        = some { bytesInUse := b, quota := SYNC_QUOTA_BYTES
                 available := (SYNC_QUOTA_BYTES : Int) - (b : Int) })
    ∧ (∀ t read e, (validateTemplate t).isValid = true →
        saveTemplateRun t read (.error e) = .error e) := by
  refine ⟨fun e => rfl, fun e => rfl, fun e => rfl, fun b => rfl, ?_⟩
  intro t read e hv
  unfold saveTemplateRun
  rw [if_pos hv]
  cases read <;> rfl

/-- C8 witness: a concrete write failure propagated by `saveTemplate`. -/
theorem c8_w :
    saveTemplateRun TWork1 (.ok none) (.error "write failed") = .error "write failed" :=
  c8_read_failures_degrade.2.2.2.2 TWork1 (.ok none) "write failed" rfl

-- C9

/-- A 44-character template name: valid on its own, but one character
too long to survive the " (Copy)" suffix within the 50-character bound. -/
def name44 : String := String.mk (List.replicate 44 'a')

/-- A valid stored template named `name44`. -/
def T44 : Template :=
  { id := "id-3", name := name44, description := none
    color := TEMPLATE_DEFAULT_COLOR, icon := TEMPLATE_DEFAULT_ICON
    tabs := [tabMail], createdAt := 0, lastUsedAt := none, usageCount := 0 }

/-- A store holding exactly `T44`. -/
def store44 : Store := { templates := [T44], settings := DEFAULT_SETTINGS }

/-- C9 counterexample: duplicating a stored (valid) template whose name
has 44 characters fails — the clone's name `name44 ++ " (Copy)"` has 51
characters and is rejected by the re-validation inside `saveTemplate` —
so `duplicateTemplate` does not succeed for every stored template. -/
theorem c9_cex :
    (validateTemplate T44).isValid = true
    ∧ getTemplate "id-3" store44 = some T44
    ∧ duplicateTemplate "id-3" "id-4" 9 store44
        = (.error "Template name must be 50 characters or less", store44) :=
  ⟨rfl, rfl, rfl⟩

/-- C9 amended: for a stored template whose " (Copy)"-suffixed clone
still passes full-template validation (in particular the name must stay
within 50 characters) and for a generated id that is fresh,
`duplicateTemplate` succeeds and appends a clone with the new id, the
suffixed name, a fresh creation time, reset usage fields, and the
original's tabs and description. -/
theorem c9_duplicate_succeeds_when_clone_valid
    (s : Store) (templateId newId : String) (t : Template) (now : Nat)
    (hfind : getTemplate templateId s = some t)
    (hvalid : (validateTemplate (copyTemplate t newId now)).isValid = true)
    (hfresh : ¬ newId ∈ s.templates.map Template.id) :
    ∃ dup, duplicateTemplate templateId newId now s
        = (.ok dup, { s with templates := s.templates ++ [dup] })
      ∧ dup.id = newId ∧ dup.name = t.name ++ " (Copy)" ∧ dup.createdAt = now
      ∧ dup.lastUsedAt = none ∧ dup.usageCount = 0
      ∧ dup.tabs = t.tabs ∧ dup.description = t.description
      ∧ ¬ dup.id ∈ s.templates.map Template.id := by
  refine ⟨copyTemplate t newId now, ?_, rfl, rfl, rfl, rfl, rfl, rfl, rfl, hfresh⟩
  unfold duplicateTemplate
  rw [hfind]
  simp only [saveTemplate]
  rw [if_pos hvalid]

/-- C9 witness: a concrete successful duplication of `TWork1`. -/
theorem c9_w :
    getTemplate "id-1" store1 = some TWork1
    ∧ ∃ dup, duplicateTemplate "id-1" "id-9" 3 store1
        = (.ok dup, { store1 with templates := store1.templates ++ [dup] })
      ∧ dup.id = "id-9" ∧ dup.name = TWork1.name ++ " (Copy)" ∧ dup.createdAt = 3
      ∧ dup.lastUsedAt = none ∧ dup.usageCount = 0
      ∧ dup.tabs = TWork1.tabs ∧ dup.description = TWork1.description
      ∧ ¬ dup.id ∈ store1.templates.map Template.id :=
  ⟨rfl, c9_duplicate_succeeds_when_clone_valid store1 "id-1" "id-9" TWork1 3 rfl rfl
    (by decide)⟩

-- C10

/-- C10: `importData` with a well-formed payload returns the full length
of the imported list in both modes — with `merge = true` counting also
the templates skipped for an id collision (the persisted list only grows
by the non-colliding ones), and with `merge = false` the replacing list
is the payload itself, so its length is again the payload's. -/
theorem c10_import_returns_payload_length (version : String) (exportedAt : Nat)
    (ts : List Template) (mg : Bool) (s : Store) :
    (importData { version := version, exportedAt := exportedAt, templates := some ts } mg s).1
      = .ok ts.length
    ∧ (importData { version := version, exportedAt := exportedAt, templates := some ts } true s).2.templates
      = s.templates ++ ts.filter (fun t => !((s.templates.map (fun t => t.id)).contains t.id))
    ∧ (importData { version := version, exportedAt := exportedAt, templates := some ts } false s).2.templates
      = ts := by
  refine ⟨?_, rfl, rfl⟩
  cases mg <;> rfl

end QS
